import Mathlib

/-!
Shallow embedding of the verify-k8s-certs scanner (src/verify.go).

The program is a long-running Kubernetes TLS-certificate scanner.  Its core is
three functions, all in verify.go:

* testTLS: dials service.namespace.svc.cluster.local:port with a timeout,
  writes a "ping" payload, and for each peer certificate updates a labelled
  gauge with the seconds until NotAfter, returning (ok, number of certs);
* discoverServices: compiles the namespace-skip regex (panicking on a bad,
  non-empty pattern), then loops forever: lists all services (panicking on
  failure), probes every non-skipped (service, port) pair, sets the
  discovered-certificates gauge to the cycle total and increments the
  heartbeat counter;
* main: flag parsing and HTTP wiring (out of scope here).

The embedding below models time instants as integer nanoseconds, the Go
time.Time.Sub saturation and Duration.Seconds exactly, network I/O as an
oracle from dialed address to a dial outcome, the Prometheus gauge vector as
a partial map updated by Set (overwrite), and the infinite scan loop as a
fuel-indexed iteration whose panics are surfaced as an Except error carrying
the metrics state at the moment of the panic.
-/

/-- Maximum value of the Go time.Duration type (int64 nanoseconds). -/
def maxDuration : Int := 2 ^ 63 - 1

/-- Minimum value of the Go time.Duration type (int64 nanoseconds). -/
def minDuration : Int := -(2 ^ 63)

/-- Model of Go time.Time.Sub on wall-clock instants measured in integer
nanoseconds: the exact difference, saturated to the Duration range, as
documented for time.Time.Sub ("if the result exceeds the maximum (or minimum)
value that can be stored in a Duration, the maximum (or minimum) duration
will be returned"). -/
def timeSub (t u : Int) : Int :=
  if t - u < minDuration then minDuration
  else if maxDuration < t - u then maxDuration
  else t - u

/-- Model of Go time.Duration.Seconds: sec := d / Second (truncated division),
nsec := d % Second, result sec + nsec/1e9.  Rationals stand in for float64;
on this definition the sum is exactly d / 1e9. -/
def durationSeconds (d : Int) : ℚ :=
  (d.tdiv 1000000000 : ℚ) + (d.tmod 1000000000 : ℚ) / 1000000000

/-- Translation of line 72 of verify.go:
timeToExpiration := cert.NotAfter.Sub(time.Now()), published via .Seconds(). -/
def secondsToExpiration (notAfter now : Int) : ℚ :=
  durationSeconds (timeSub notAfter now)

/-- The fields of an x509 certificate that verify.go reads: NotAfter (as
nanoseconds since the epoch) and the CommonName and SerialNumber strings of
the issuer distinguished name. -/
structure GoCert where
  notAfterNs : Int
  issuerCommonName : String
  issuerSerialNumber : String
  deriving DecidableEq, Repr

/-- Label tuple of the expiredCertsGauge gauge vector, in declaration order:
namespace, service, port, issuer, serialnumber. -/
abbrev GaugeKey := String × String × String × String × String

/-- Outcome of tls.DialWithDialer followed by the conn.Write of "ping\n",
as seen by testTLS: either the dial/handshake fails, or it yields a
connection with a peer certificate chain (leaf first) and the later Write
either succeeds or fails. -/
inductive DialResult where
  | dialError (msg : String)
  | conn (peerCertificates : List GoCert) (writeOk : Bool)
  deriving DecidableEq, Repr

/-- Observable behaviour of one testTLS call: the address handed to the
dialer, the returned (bool, int) pair, and the sequence of
expiredCertsGauge.WithLabelValues(...).Set(...) calls it performed, in
order. -/
structure ProbeEffect where
  dialed : String
  ok : Bool
  certCount : Nat
  gaugeUpdates : List (GaugeKey × ℚ)
  deriving DecidableEq, Repr

/-- Translation of line 42 of verify.go:
fmt.Sprintf("%s.%s.svc.cluster.local:%d", svc, namespace, port). -/
def fullhostname (svc ns : String) (port : Int) : String :=
  svc ++ "." ++ ns ++ ".svc.cluster.local:" ++ toString port

/-- One iteration of the certificate loop body (lines 70-73 of verify.go):
the WithLabelValues key (namespace, svc, strconv.Itoa(port), issuer
CommonName, issuer SerialNumber) paired with the Set value
cert.NotAfter.Sub(time.Now()).Seconds(). -/
def certRecord (ns svc : String) (port : Int) (now : Int) (c : GoCert) :
    GaugeKey × ℚ :=
  ((ns, svc, toString port, c.issuerCommonName, c.issuerSerialNumber),
    secondsToExpiration c.notAfterNs now)

/-- The certificate loop of testTLS (lines 68-74 of verify.go): walks the
peer chain in order, incrementing discoveredTLScerts and emitting one gauge
update per certificate.  (The certsExpiryDates string slice is used only in
a log line and is not modelled.) -/
def processCerts (ns svc : String) (port now : Int) :
    List GoCert → Nat → List (GaugeKey × ℚ) → Nat × List (GaugeKey × ℚ)
  | [], n, us => (n, us)
  | c :: rest, n, us =>
      processCerts ns svc port now rest (n + 1) (us ++ [certRecord ns svc port now c])

/-- Translation of testTLS (lines 41-78 of verify.go).  The network is an
oracle from the dialed address to a DialResult; now is the wall clock read
by time.Now() inside the certificate loop.  Dial failure returns (false, 0)
with no gauge updates; a failed Write of the liveness payload also returns
(false, 0) before the certificate loop runs; otherwise the chain is
processed and (true, count) returned. -/
def testTLS (net : String → DialResult) (now : Int) (svc ns : String) (port : Int) :
    ProbeEffect :=
  match net (fullhostname svc ns port) with
  | .dialError _ => ⟨fullhostname svc ns port, false, 0, []⟩
  | .conn certs writeOk =>
      if writeOk then
        let r := processCerts ns svc port now certs 0 []
        ⟨fullhostname svc ns port, true, r.1, r.2⟩
      else ⟨fullhostname svc ns port, false, 0, []⟩

/-- Does the character list p occur as a contiguous run inside the second
list?  Helper for the substring semantics of unanchored Go regexp matching
on literal patterns. -/
def hasSubstr (p : List Char) : List Char → Bool
  | [] => decide (p = [])
  | c :: rest => p.isPrefixOf (c :: rest) || hasSubstr p rest

/-- Model of Go regexp matching (regexp.Compile followed by r.Match) for the
pattern fragment the spec of this program exercises: the empty pattern (matches
every text), a pattern starting with the anchor ^ followed by a literal
(matches iff the literal is a prefix of the text), and a plain literal
(matches iff it occurs anywhere in the text).  Metacharacters beyond a
leading ^ are not modelled. -/
def goRegexMatch (pattern text : String) : Bool :=
  match pattern.data with
  | [] => true
  | '^' :: rest => rest.isPrefixOf text.data
  | _ :: _ => hasSubstr pattern.data text.data

/-- Translation of the skip condition on line 112 of verify.go:
skipNamespaceRegex != "" && r.Match([]byte(ns)), with r compiled from the
pattern. -/
def shouldSkip (ns pattern : String) : Bool :=
  (pattern != "") && goRegexMatch pattern ns

/-- State of the Prometheus metrics registry as far as verify.go writes it:
the labelled seconds-to-expiration gauge vector (a partial map from label
tuple to value), the scalar discovered-certificates gauge and the heartbeat
counter.  The source misspells the counter as hearthbeatCounter; the name is
kept. -/
structure MetricsState where
  expiredCertsGauge : GaugeKey → Option ℚ
  discoveredCertsGauge : ℚ
  hearthbeatCounter : Nat

/-- Model of GaugeVec.WithLabelValues(...).Set(v): overwrite the value at
one label tuple, leaving every other series untouched. -/
def gaugeVecSet (g : GaugeKey → Option ℚ) (k : GaugeKey) (v : ℚ) :
    GaugeKey → Option ℚ :=
  fun k2 => if k2 = k then some v else g k2

/-- Apply a sequence of Set calls to the gauge vector, in order. -/
def applyUpdates : List (GaugeKey × ℚ) → (GaugeKey → Option ℚ) → GaugeKey → Option ℚ
  | [], g => g
  | (k, v) :: us, g => applyUpdates us (gaugeVecSet g k v)

/-- A service as returned by the cluster directory: name, namespace and the
ports listed in its spec (verify.go reads svc.GetName(), svc.GetNamespace()
and svc.Spec.Ports). -/
structure GoService where
  name : String
  ns : String
  ports : List Int
  deriving DecidableEq, Repr

/-- The inner port loop of discoverServices (lines 117-121 of verify.go):
probe every port of one service, adding certsNum to the cycle count only
when testTLS reports ok; the gauge updates testTLS performed happen
unconditionally (they are side effects inside testTLS). -/
def scanPorts (net : String → DialResult) (now : Int) (svcName ns : String) :
    List Int → Nat × List (GaugeKey × ℚ) → Nat × List (GaugeKey × ℚ)
  | [], acc => acc
  | p :: ps, (n, us) =>
      let e := testTLS net now svcName ns p
      scanPorts net now svcName ns ps
        (if e.ok then n + e.certCount else n, us ++ e.gaugeUpdates)

/-- The service loop of one scan cycle (lines 107-123 of verify.go): skip a
service whose namespace the skip predicate matches, otherwise scan its
ports. -/
def scanServices (net : String → DialResult) (now : Int) (skip : String → Bool) :
    List GoService → Nat × List (GaugeKey × ℚ) → Nat × List (GaugeKey × ℚ)
  | [], acc => acc
  | s :: rest, acc =>
      if skip s.ns then scanServices net now skip rest acc
      else scanServices net now skip rest (scanPorts net now s.name s.ns s.ports acc)

/-- One scan cycle body after a successful directory listing (lines 99-126
of verify.go): reset the cycle count to zero, scan all services, apply the
per-certificate gauge updates, Set the discovered-certificates gauge to the
cycle total and Inc the heartbeat counter once. -/
def runCycle (net : String → DialResult) (now : Int) (skip : String → Bool)
    (svcs : List GoService) (st : MetricsState) : MetricsState :=
  let r := scanServices net now skip svcs (0, [])
  { expiredCertsGauge := applyUpdates r.2 st.expiredCertsGauge
    discoveredCertsGauge := (r.1 : ℚ)
    hearthbeatCounter := st.hearthbeatCounter + 1 }

/-- The panics discoverServices can raise: in-cluster config / clientset
construction failure (lines 82-90), regex compilation failure (lines 92-96),
and service-listing failure inside the loop (lines 100-103). -/
inductive GoPanic where
  | configPanic (msg : String)
  | regexPanic (msg : String)
  | listPanic (msg : String)
  deriving DecidableEq, Repr

/-- True exactly on the regex-compilation panic. -/
def GoPanic.isRegexPanic : GoPanic → Bool
  | .regexPanic _ => true
  | _ => false

/-- The infinite for-loop of discoverServices (lines 98-130 of verify.go),
indexed by fuel (number of cycles run in this finite observation) and the
cycle number i.  The directory, network and clock are per-cycle oracles.  A
listing failure panics, surfacing the metrics state at that moment; the
sleep between cycles has no observable effect on this state and is not
modelled. -/
def runLoop (dir : Nat → Except String (List GoService))
    (net : Nat → String → DialResult) (now : Nat → Int) (skip : String → Bool) :
    Nat → MetricsState → Nat → Except (GoPanic × MetricsState) MetricsState
  | 0, st, _ => .ok st
  | fuel + 1, st, i =>
      match dir i with
      | .error e => .error (.listPanic e, st)
      | .ok svcs =>
          runLoop dir net now skip fuel (runCycle (net i) (now i) skip svcs st) (i + 1)

/-- Translation of discoverServices (lines 80-131 of verify.go).  inCluster
models the rest.InClusterConfig / kubernetes.NewForConfig pair, compile
models regexp.Compile.  A compile error panics only when the pattern is
non-empty (line 94); with an empty pattern the skip guard short-circuits
before ever consulting the (nil) regex, so the loop runs with a
never-skipping predicate. -/
def discoverServices (inCluster : Except String Unit)
    (compile : String → Except String (String → Bool)) (pattern : String)
    (dir : Nat → Except String (List GoService)) (net : Nat → String → DialResult)
    (now : Nat → Int) (fuel : Nat) (st : MetricsState) :
    Except (GoPanic × MetricsState) MetricsState :=
  match inCluster with
  | .error e => .error (.configPanic e, st)
  | .ok _ =>
      match compile pattern with
      | .error e =>
          if pattern = "" then runLoop dir net now (fun _ => false) fuel st 0
          else .error (.regexPanic e, st)
      | .ok m => runLoop dir net now (fun ns => (pattern != "") && m ns) fuel st 0

/-! Helper lemmas shared by the claim theorems. -/

/-- On this embedding Duration.Seconds is exactly division by 1e9. -/
theorem durationSeconds_eq (d : Int) : durationSeconds d = (d : ℚ) / 1000000000 := by
  have h := Int.tdiv_add_tmod d 1000000000
  rw [durationSeconds, eq_div_iff (by norm_num : (1000000000 : ℚ) ≠ 0)]
  have h2 : ((1000000000 * d.tdiv 1000000000 + d.tmod 1000000000 : Int) : ℚ) = (d : ℚ) := by
    rw [h]
  push_cast at h2
  field_simp
  linarith

/-- Saturated subtraction of a strictly earlier instant is positive. -/
theorem timeSub_pos (t u : Int) (h : u < t) : 0 < timeSub t u := by
  rw [timeSub]
  split_ifs with h1 h2
  · exfalso; norm_num [minDuration] at h1; omega
  · norm_num [maxDuration]
  · omega

/-- Saturated subtraction of a strictly later instant is negative. -/
theorem timeSub_neg (t u : Int) (h : t < u) : timeSub t u < 0 := by
  rw [timeSub]
  split_ifs with h1 h2
  · norm_num [minDuration]
  · exfalso; norm_num [maxDuration] at h2; omega
  · omega

/-- Saturated subtraction agrees with the exact difference inside the
Duration range. -/
theorem timeSub_in_range (t u : Int) (h1 : minDuration ≤ t - u)
    (h2 : t - u ≤ maxDuration) : timeSub t u = t - u := by
  rw [timeSub]
  split_ifs with g1 g2
  · omega
  · omega
  · rfl

/-- The certificate loop counts one and emits one gauge update per
certificate, in chain order. -/
theorem processCerts_eq (ns svc : String) (port now : Int) :
    ∀ (certs : List GoCert) (n : Nat) (us : List (GaugeKey × ℚ)),
    processCerts ns svc port now certs n us =
      (n + certs.length, us ++ certs.map (certRecord ns svc port now)) := by
  intro certs
  induction certs with
  | nil => intro n us; simp [processCerts]
  | cons c rest ih =>
      intro n us
      rw [processCerts, ih]
      simp
      omega

/-- Unfolding of testTLS on a connection whose liveness write succeeds. -/
theorem testTLS_success (net : String → DialResult) (now : Int) (svc ns : String)
    (port : Int) (certs : List GoCert)
    (h : net (fullhostname svc ns port) = .conn certs true) :
    testTLS net now svc ns port =
      ⟨fullhostname svc ns port, true, certs.length,
        certs.map (certRecord ns svc port now)⟩ := by
  rw [testTLS, h]
  simp [processCerts_eq]

/-- Lookup after a sequence of Set calls: the last value written for the key
if there is one, the previous contents otherwise. -/
def lastValue (k : GaugeKey) : List (GaugeKey × ℚ) → Option ℚ → Option ℚ
  | [], dflt => dflt
  | (k1, v) :: us, dflt => lastValue k us (if k = k1 then some v else dflt)

/-- applyUpdates behaves at each key like lastValue. -/
theorem applyUpdates_lastValue :
    ∀ (us : List (GaugeKey × ℚ)) (g : GaugeKey → Option ℚ) (k : GaugeKey),
    applyUpdates us g k = lastValue k us (g k) := by
  intro us
  induction us with
  | nil => intro g k; rfl
  | cons p us ih =>
      intro g k
      rcases p with ⟨k1, v⟩
      rw [applyUpdates, ih, lastValue, gaugeVecSet]

/-- For a key written at least once in the update sequence, the final value
does not depend on what the gauge held before. -/
theorem lastValue_of_mem (k : GaugeKey) :
    ∀ (us : List (GaugeKey × ℚ)), k ∈ us.map Prod.fst →
    ∀ (d1 d2 : Option ℚ), lastValue k us d1 = lastValue k us d2 := by
  intro us
  induction us with
  | nil => intro h; simp at h
  | cons p us ih =>
      intro h d1 d2
      rcases p with ⟨k1, v⟩
      by_cases hk : k = k1
      · subst hk
        simp [lastValue]
      · rw [lastValue, lastValue, if_neg hk, if_neg hk]
        apply ih
        simp at h
        rcases h with h | h
        · exact absurd h hk
        · simpa using h

/-- The cycle count accumulated over the ports of one service: the accumulator
plus, for each port, the certificate count of an ok probe and zero for a
failed one. -/
theorem scanPorts_fst (net : String → DialResult) (now : Int) (nm ns : String) :
    ∀ (ps : List Int) (n : Nat) (us : List (GaugeKey × ℚ)),
    (scanPorts net now nm ns ps (n, us)).1 =
      n + (ps.map fun p =>
        if (testTLS net now nm ns p).ok then (testTLS net now nm ns p).certCount
        else 0).sum := by
  intro ps
  induction ps with
  | nil => intro n us; simp [scanPorts]
  | cons p ps ih =>
      intro n us
      rw [scanPorts]
      cases h : (testTLS net now nm ns p).ok
      · simp only [h, Bool.false_eq_true, if_false, ih, List.map_cons, List.sum_cons]
        omega
      · simp only [h, if_true, ih, List.map_cons, List.sum_cons]
        omega

/-- The cycle count accumulated over a list of services: skipped namespaces
contribute nothing, every other service contributes the sum over its
ports. -/
theorem scanServices_fst (net : String → DialResult) (now : Int) (skip : String → Bool) :
    ∀ (svcs : List GoService) (n : Nat) (us : List (GaugeKey × ℚ)),
    (scanServices net now skip svcs (n, us)).1 =
      n + (((svcs.filter fun s => !skip s.ns).map fun s =>
          (s.ports.map fun p =>
            if (testTLS net now s.name s.ns p).ok then (testTLS net now s.name s.ns p).certCount
            else 0).sum).sum) := by
  intro svcs
  induction svcs with
  | nil => intro n us; simp [scanServices]
  | cons s rest ih =>
      intro n us
      rw [scanServices]
      cases h : skip s.ns
      · rcases h2 : scanPorts net now s.name s.ns s.ports (n, us) with ⟨n2, us2⟩
        have hfst := scanPorts_fst net now s.name s.ns s.ports n us
        rw [h2] at hfst
        simp only [h, Bool.false_eq_true, if_false, h2, ih, List.filter_cons,
          Bool.not_false, if_true, List.map_cons, List.sum_cons]
        simp at hfst
        omega
      · simp only [h, if_true, ih, List.filter_cons, Bool.not_true]
        simp

/-- The scan loop panics only on directory-listing failures: no iteration
of it can surface the regex-compilation panic. -/
theorem runLoop_panics_are_listPanics (dir : Nat → Except String (List GoService))
    (net : Nat → String → DialResult) (now : Nat → Int) (skip : String → Bool) :
    ∀ (fuel : Nat) (st : MetricsState) (i : Nat) (p : GoPanic) (st2 : MetricsState),
    runLoop dir net now skip fuel st i = .error (p, st2) →
    ∃ e, p = .listPanic e := by
  intro fuel
  induction fuel with
  | zero => intro st i p st2 h; exact absurd h (by simp [runLoop])
  | succ fuel ih =>
      intro st i p st2 h
      rw [runLoop] at h
      cases hd : dir i with
      | error e =>
          rw [hd] at h
          simp at h
          exact ⟨e, h.1.symm⟩
      | ok svcs =>
          rw [hd] at h
          exact ih _ _ p st2 h

/-! Concrete fixtures used by counterexamples and witnesses. -/

/-- A network where every dial succeeds with a one-certificate chain but the
liveness write then fails. -/
def net_writefail : String → DialResult :=
  fun _ => .conn [⟨0, "ca", "1"⟩] false

/-- A network where every dial succeeds with a one-certificate chain and the
liveness write succeeds. -/
def net_one : String → DialResult :=
  fun _ => .conn [⟨1000000000, "ca", "7"⟩] true

/-- A three-certificate chain, leaf first. -/
def chain3 : List GoCert :=
  [⟨1, "leaf-ca", "s1"⟩, ⟨2, "mid-ca", "s2"⟩, ⟨3, "root-ca", "s3"⟩]

/-- A network where every dial succeeds with chain3 and a successful write. -/
def net3 : String → DialResult := fun _ => .conn chain3 true

/-- A directory oracle whose every listing fails. -/
def dir_fail : Nat → Except String (List GoService) :=
  fun _ => .error "Unauthorized"

/-- A regexp compiler that rejects every pattern. -/
def compile_fail : String → Except String (String → Bool) :=
  fun _ => .error "missing closing bracket"

/-- The metrics registry at process start. -/
def initState : MetricsState := ⟨fun _ => none, 0, 0⟩

/-! The claims. -/

/-- Claim C1, counterexample: with a connection that presents one peer
certificate but whose liveness write fails, testTLS reports failure with a
zero certificate count and performs no gauge updates — it does not return
the already-obtained one-certificate chain as the claim states. -/
theorem write_failure_cex :
    net_writefail (fullhostname "api" "default" 443) =
      DialResult.conn [⟨0, "ca", "1"⟩] false
    ∧ (testTLS net_writefail 0 "api" "default" 443).ok = false
    ∧ (testTLS net_writefail 0 "api" "default" 443).certCount = 0
    ∧ (testTLS net_writefail 0 "api" "default" 443).gaugeUpdates = []
    ∧ (testTLS net_writefail 0 "api" "default" 443).certCount ≠
        ([⟨0, "ca", "1"⟩] : List GoCert).length := by
  refine ⟨rfl, rfl, rfl, rfl, by decide⟩

/-- Claim C1 (amended): if the TLS handshake succeeds but the subsequent
write of the liveness payload fails, testTLS returns failure with a zero
certificate count and no gauge updates; the already-obtained peer chain is
discarded, exactly as on a connect failure. -/
theorem write_failure_discards_chain (net : String → DialResult) (now : Int)
    (svc ns : String) (port : Int) (certs : List GoCert)
    (h : net (fullhostname svc ns port) = .conn certs false) :
    testTLS net now svc ns port = ⟨fullhostname svc ns port, false, 0, []⟩ := by
  rw [testTLS, h]
  rfl

/-- Claim C1, witness for the amended theorem at a concrete input. -/
theorem write_failure_discards_chain_witness :
    testTLS net_writefail 0 "api" "default" 443 =
      ⟨fullhostname "api" "default" 443, false, 0, []⟩ :=
  write_failure_discards_chain net_writefail 0 "api" "default" 443
    [⟨0, "ca", "1"⟩] rfl

/-- Claim C2: every scan cycle increments the heartbeat counter exactly once
and sets the discovered-certificate gauge to the sum, over the non-skipped
services and their ports, of the certificate count of each successful probe,
with failed probes contributing zero. -/
theorem cycle_heartbeat_and_gauge (net : String → DialResult) (now : Int)
    (skip : String → Bool) (svcs : List GoService) (st : MetricsState) :
    (runCycle net now skip svcs st).hearthbeatCounter = st.hearthbeatCounter + 1
    ∧ (runCycle net now skip svcs st).discoveredCertsGauge =
        (((((svcs.filter fun s => !skip s.ns).map fun s =>
            (s.ports.map fun p =>
              if (testTLS net now s.name s.ns p).ok then
                (testTLS net now s.name s.ns p).certCount
              else 0).sum).sum) : Nat) : ℚ) := by
  constructor
  · rfl
  · show ((scanServices net now skip svcs (0, [])).1 : ℚ) = _
    rw [scanServices_fst]
    norm_num

/-- Claim C3: the namespace filter never skips when the pattern is empty;
for a non-empty pattern it skips exactly when the pattern matches anywhere
in the namespace; in particular the anchored pattern matching kube- as a
prefix skips kube-system and does not skip payments. -/
theorem shouldSkip_spec :
    (∀ ns, shouldSkip ns "" = false)
    ∧ (∀ ns pattern, pattern ≠ "" → shouldSkip ns pattern = goRegexMatch pattern ns)
    ∧ shouldSkip "kube-system" "^kube-" = true
    ∧ shouldSkip "payments" "^kube-" = false := by
  refine ⟨fun ns => rfl, fun ns pattern h => ?_, by decide, by decide⟩
  simp [shouldSkip, h]

/-- Claim C3, witness: the non-empty-pattern case of the filter at a
concrete namespace and pattern. -/
theorem shouldSkip_spec_witness :
    shouldSkip "payments" "^kube-" = goRegexMatch "^kube-" "payments" :=
  shouldSkip_spec.2.1 "payments" "^kube-" (by decide)

/-- Claim C4: probing the same (namespace, service, port) against the same
presented chain in two cycles yields the identical sequence of label tuples
both times (only the Set values can differ), and for any key written during
the second cycle the gauge holds the last value of the second cycle,
independently of the first cycle and of whatever the gauge held before. -/
theorem metric_keys_stable_and_overwritten (net : String → DialResult)
    (now1 now2 : Int) (svc ns : String) (port : Int) (certs : List GoCert)
    (g g2 : GaugeKey → Option ℚ) (k : GaugeKey)
    (h : net (fullhostname svc ns port) = .conn certs true)
    (hk : k ∈ (testTLS net now2 svc ns port).gaugeUpdates.map Prod.fst) :
    (testTLS net now1 svc ns port).gaugeUpdates.map Prod.fst =
      (testTLS net now2 svc ns port).gaugeUpdates.map Prod.fst
    ∧ applyUpdates (testTLS net now2 svc ns port).gaugeUpdates
        (applyUpdates (testTLS net now1 svc ns port).gaugeUpdates g) k =
      applyUpdates (testTLS net now2 svc ns port).gaugeUpdates g2 k := by
  constructor
  · rw [testTLS_success net now1 svc ns port certs h,
      testTLS_success net now2 svc ns port certs h]
    simp [certRecord]
  · simp only [applyUpdates_lastValue]
    exact lastValue_of_mem k _ hk _ _

/-- Claim C4, witness: two cycles at different clock readings over the same
one-certificate service, with both an empty and a non-empty prior gauge. -/
theorem metric_keys_stable_and_overwritten_witness :
    (testTLS net_one 0 "api" "default" 443).gaugeUpdates.map Prod.fst =
      (testTLS net_one 1 "api" "default" 443).gaugeUpdates.map Prod.fst
    ∧ applyUpdates (testTLS net_one 1 "api" "default" 443).gaugeUpdates
        (applyUpdates (testTLS net_one 0 "api" "default" 443).gaugeUpdates
          (fun _ => none)) ("default", "api", "443", "ca", "7") =
      applyUpdates (testTLS net_one 1 "api" "default" 443).gaugeUpdates
        (fun _ => some 42) ("default", "api", "443", "ca", "7") :=
  metric_keys_stable_and_overwritten net_one 0 1 "api" "default" 443
    [⟨1000000000, "ca", "7"⟩] (fun _ => none) (fun _ => some 42)
    ("default", "api", "443", "ca", "7") rfl
    (by rw [testTLS_success net_one 1 "api" "default" 443 [⟨1000000000, "ca", "7"⟩] rfl]
        simp only [List.map_cons, List.map_nil, certRecord, List.mem_singleton]
        rfl)

/-- Claim C5, counterexample: the published remaining lifetime is the
time.Time.Sub difference, which saturates at the int64 Duration bound, so
for a NotAfter further than about 292 years from now it is not equal to
notAfter - now in seconds. -/
theorem secondsToExpiration_saturates_cex :
    secondsToExpiration (2 ^ 63) 0 ≠ ((2 ^ 63 - 0 : Int) : ℚ) / 1000000000 := by
  rw [secondsToExpiration, durationSeconds_eq]
  norm_num [timeSub, maxDuration, minDuration]

/-- Claim C5 (amended): the published remaining lifetime equals
(notAfter - now) / 1e9 seconds whenever the difference fits the int64
nanosecond Duration range (beyond it the value saturates at the range
bound); it is positive whenever NotAfter is in the future and negative
whenever NotAfter is in the past, a valid signal rather than an error. -/
theorem secondsToExpiration_spec (notAfter now : Int) :
    (minDuration ≤ notAfter - now → notAfter - now ≤ maxDuration →
      secondsToExpiration notAfter now = ((notAfter - now : Int) : ℚ) / 1000000000)
    ∧ (now < notAfter → 0 < secondsToExpiration notAfter now)
    ∧ (notAfter < now → secondsToExpiration notAfter now < 0) := by
  refine ⟨fun h1 h2 => ?_, fun h => ?_, fun h => ?_⟩
  · rw [secondsToExpiration, durationSeconds_eq, timeSub_in_range notAfter now h1 h2]
  · rw [secondsToExpiration, durationSeconds_eq]
    exact div_pos (by exact_mod_cast timeSub_pos notAfter now h) (by norm_num)
  · rw [secondsToExpiration, durationSeconds_eq]
    exact div_neg_of_neg_of_pos (by exact_mod_cast timeSub_neg notAfter now h) (by norm_num)

/-- Claim C5, witness: a five-second-out certificate, a future certificate,
and an expired certificate, at concrete instants. -/
theorem secondsToExpiration_spec_witness :
    secondsToExpiration 5000000000 0 = ((5000000000 - 0 : Int) : ℚ) / 1000000000
    ∧ 0 < secondsToExpiration 5000000000 0
    ∧ secondsToExpiration (-3) 0 < 0 :=
  ⟨(secondsToExpiration_spec 5000000000 0).1 (by norm_num [minDuration])
      (by norm_num [maxDuration]),
    (secondsToExpiration_spec 5000000000 0).2.1 (by norm_num),
    (secondsToExpiration_spec (-3) 0).2.2 (by norm_num)⟩

/-- Claim C6: a successful probe of a chain of N certificates reports
success, a certificate count of exactly N, and exactly N gauge updates, one
per certificate, in the order the certificates appear in the chain (leaf
first). -/
theorem testTLS_extraction (net : String → DialResult) (now : Int)
    (svc ns : String) (port : Int) (certs : List GoCert)
    (h : net (fullhostname svc ns port) = .conn certs true) :
    (testTLS net now svc ns port).ok = true
    ∧ (testTLS net now svc ns port).certCount = certs.length
    ∧ (testTLS net now svc ns port).gaugeUpdates =
        certs.map (certRecord ns svc port now)
    ∧ (testTLS net now svc ns port).gaugeUpdates.length = certs.length := by
  rw [testTLS_success net now svc ns port certs h]
  simp

/-- Claim C6, witness: a three-certificate chain yields exactly three
records, leaf first. -/
theorem testTLS_extraction_witness :
    (testTLS net3 0 "api" "default" 443).ok = true
    ∧ (testTLS net3 0 "api" "default" 443).certCount = chain3.length
    ∧ (testTLS net3 0 "api" "default" 443).gaugeUpdates =
        chain3.map (certRecord "default" "api" 443 0)
    ∧ (testTLS net3 0 "api" "default" 443).gaugeUpdates.length = chain3.length :=
  testTLS_extraction net3 0 "api" "default" 443 chain3 rfl

/-- Claim C7: when the directory listing at the start of a scan cycle
fails, the loop panics immediately with the listing error: the metrics
state is exactly what it was before the cycle (no heartbeat advance, no
gauge writes from a partial list) and the outcome does not depend on how
much fuel remains, so there is no retry and no degraded continuation. -/
theorem directory_failure_fatal (dir : Nat → Except String (List GoService))
    (net : Nat → String → DialResult) (now : Nat → Int) (skip : String → Bool)
    (i : Nat) (e : String) (fuel : Nat) (st : MetricsState)
    (h : dir i = .error e) :
    runLoop dir net now skip (fuel + 1) st i = .error (.listPanic e, st) := by
  rw [runLoop, h]

/-- Claim C7, witness: a directory that refuses its first listing halts the
loop at once with the initial metrics state. -/
theorem directory_failure_fatal_witness :
    runLoop dir_fail (fun _ _ => DialResult.dialError "refused") (fun _ => 0)
      (fun _ => false) 1 initState 0 = .error (.listPanic "Unauthorized", initState) :=
  directory_failure_fatal dir_fail (fun _ _ => DialResult.dialError "refused")
    (fun _ => 0) (fun _ => false) 0 "Unauthorized" 0 initState rfl

/-- Claim C8: a non-empty pattern that fails to compile makes
discoverServices panic once at start, before any scan cycle, leaving the
metrics state untouched whatever fuel and directory it was given; the loop
itself can only raise listing panics, never the regex panic, so the error
is never raised per-cycle; and with the empty pattern the regex panic can
never be raised at all. -/
theorem regex_compile_failure_fatal
    (compile : String → Except String (String → Bool)) (pattern e : String)
    (dir : Nat → Except String (List GoService)) (net : Nat → String → DialResult)
    (now : Nat → Int) (fuel : Nat) (st : MetricsState) (skip : String → Bool)
    (i : Nat) (p q : GoPanic) (st2 sq : MetricsState)
    (h1 : pattern ≠ "") (h2 : compile pattern = .error e) :
    discoverServices (.ok ()) compile pattern dir net now fuel st =
      .error (.regexPanic e, st)
    ∧ (discoverServices (.ok ()) compile "" dir net now fuel st = .error (p, st2) →
        p.isRegexPanic = false)
    ∧ (runLoop dir net now skip fuel st i = .error (q, sq) →
        q.isRegexPanic = false) := by
  refine ⟨?_, fun hp => ?_, fun hq => ?_⟩
  · rw [discoverServices, h2]
    simp [h1]
  · rw [discoverServices] at hp
    cases hc : compile "" with
    | error m =>
        rw [hc] at hp
        simp only [if_pos rfl] at hp
        obtain ⟨m2, hm⟩ := runLoop_panics_are_listPanics dir net now _ fuel st 0 p st2 hp
        rw [hm]; rfl
    | ok m =>
        rw [hc] at hp
        obtain ⟨m2, hm⟩ := runLoop_panics_are_listPanics dir net now _ fuel st 0 p st2 hp
        rw [hm]; rfl
  · obtain ⟨m2, hm⟩ := runLoop_panics_are_listPanics dir net now skip fuel st i q sq hq
    rw [hm]; rfl

/-- Claim C8, witness: a rejected non-empty pattern at process start, with
a failing directory so that the per-cycle panics of the two loop conjuncts
are exercised as listing panics. -/
theorem regex_compile_failure_fatal_witness :
    discoverServices (.ok ()) compile_fail "[" dir_fail
      (fun _ _ => DialResult.dialError "refused") (fun _ => 0) 1 initState =
      .error (.regexPanic "missing closing bracket", initState)
    ∧ (discoverServices (.ok ()) compile_fail "" dir_fail
        (fun _ _ => DialResult.dialError "refused") (fun _ => 0) 1 initState =
          .error (.listPanic "Unauthorized", initState) →
        GoPanic.isRegexPanic (.listPanic "Unauthorized") = false)
    ∧ (runLoop dir_fail (fun _ _ => DialResult.dialError "refused") (fun _ => 0)
        (fun _ => false) 1 initState 0 = .error (.listPanic "Unauthorized", initState) →
        GoPanic.isRegexPanic (.listPanic "Unauthorized") = false) :=
  regex_compile_failure_fatal compile_fail "[" "missing closing bracket" dir_fail
    (fun _ _ => DialResult.dialError "refused") (fun _ => 0) 1 initState
    (fun _ => false) 0 (.listPanic "Unauthorized") (.listPanic "Unauthorized")
    initState initState (by decide) rfl

/-- Claim C10: every probe dials exactly the string
service.namespace.svc.cluster.local:port, and the probe outcome depends on
the network only through its answer at that one address. -/
theorem testTLS_dialed_address (net : String → DialResult) (now : Int)
    (svc ns : String) (port : Int) :
    (testTLS net now svc ns port).dialed =
      svc ++ "." ++ ns ++ ".svc.cluster.local:" ++ toString port
    ∧ ∀ net2 : String → DialResult,
        net2 (fullhostname svc ns port) = net (fullhostname svc ns port) →
        testTLS net2 now svc ns port = testTLS net now svc ns port := by
  constructor
  · rw [testTLS]
    cases net (fullhostname svc ns port) with
    | dialError m => rfl
    | conn certs writeOk => cases writeOk <;> rfl
  · intro net2 h
    rw [testTLS, testTLS, h]

/-- Claim C10, witness: two networks that agree at the dialed address give
identical probe outcomes, at concrete inputs. -/
theorem testTLS_dialed_address_witness :
    testTLS (fun a => if a = "api.default.svc.cluster.local:443" then
        DialResult.dialError "refused" else DialResult.conn [] true)
      0 "api" "default" 443 =
    testTLS (fun _ => DialResult.dialError "refused") 0 "api" "default" 443 :=
  (testTLS_dialed_address (fun _ => DialResult.dialError "refused") 0
      "api" "default" 443).2
    (fun a => if a = "api.default.svc.cluster.local:443" then
        DialResult.dialError "refused" else DialResult.conn [] true)
    (by decide)
